import Mathlib

/-!
# Verification of the Fairland heat-pump integration

Shallow embedding of `custom_components/fairland` (api.py, coordinator.py,
climate.py, number.py, sensor.py) and proofs about the claims on its
polling, authentication-retry, and data-point-normalization behaviour.

Modelling conventions:
* JSON documents are embedded to depth two: `JTop` is a parsed document,
  its values are `JVal`, and values nested at depth two are `JLeaf`.
  Containers nested deeper than the code ever inspects are abstracted to
  the markers `larr` / `lobj` (only their Python *type* matters to every
  code path under study: `int()`/`float()` of any list or dict is a
  `TypeError`, and lists/dicts are unhashable dictionary keys).
* Python exceptions are explicit `Except` values (`PyExn`); a bare
  `except` clause is a total catch, a narrow clause filters on the
  constructor.
* Machine floats are modelled by `ℚ`; the Python `/` on numbers is exact
  division, `round` is round-half-to-even.
-/

namespace Fairland

/-- Python exception classes distinguished by the source's `except` clauses. -/
inductive PyExn where
  | typeError
  | valueError
  | keyError
  | attrError
deriving DecidableEq, Repr

/-- A JSON value at nesting depth two; deeper containers are abstracted to
`larr`/`lobj` since the code never reads their contents. -/
inductive JLeaf where
  | lnull
  | lbool (b : Bool)
  | lnum (q : ℚ)
  | lstr (s : String)
  | larr
  | lobj
deriving DecidableEq, Repr

/-- A JSON value at nesting depth one (a value inside a parsed document). -/
inductive JVal where
  | leaf (v : JLeaf)
  | arr (l : List JLeaf)
  | obj (l : List (String × JLeaf))
deriving DecidableEq, Repr

/-- A parsed JSON document (the result of a successful `json.loads`). -/
inductive JTop where
  | leaf (v : JLeaf)
  | arr (l : List JVal)
  | obj (l : List (String × JVal))
deriving DecidableEq, Repr

/-- Outcome of `json.loads` on a device-supplied string: either a parse
failure (`json.JSONDecodeError`) or a parsed document. -/
inductive JParse where
  | malformed
  | parsed (t : JTop)
deriving DecidableEq, Repr

instance {ε α : Type} [DecidableEq ε] [DecidableEq α] :
    DecidableEq (Except ε α) := fun a b =>
  match a, b with
  | .error e, .error e' =>
    if h : e = e' then .isTrue (by rw [h]) else .isFalse (by simp [h])
  | .error _, .ok _ => .isFalse (by simp)
  | .ok _, .error _ => .isFalse (by simp)
  | .ok v, .ok v' =>
    if h : v = v' then .isTrue (by rw [h]) else .isFalse (by simp [h])

/-- Python truthiness of a depth-two value (`if not x`).  Abstracted
containers are treated as truthy (tokens are never containers in the
claims under study). -/
def JLeaf.falsy : JLeaf → Bool
  | .lnull => true
  | .lbool b => !b
  | .lnum q => q = 0
  | .lstr s => s = ""
  | .larr => false
  | .lobj => false

/-- Whether the first list is a prefix of the second. -/
def listStartsWith : List Char → List Char → Bool
  | [], _ => true
  | _ :: _, [] => false
  | a :: as, b :: bs => a = b && listStartsWith as bs

/-- Whether `needle` occurs as a contiguous run inside `hay`. -/
def listContainsSub (needle : List Char) : List Char → Bool
  | [] => needle.isEmpty
  | c :: rest => listStartsWith needle (c :: rest) || listContainsSub needle rest

/-- Python `needle in doc` for a parsed document: key membership for
dicts, element equality for lists, substring test for strings, and a
`TypeError` for every non-container. -/
def jContains (needle : String) : JTop → Except PyExn Bool
  | .obj l => .ok (l.any (fun p => p.1 = needle))
  | .arr l => .ok (l.any (fun v => v = JVal.leaf (.lstr needle)))
  | .leaf (.lstr s) => .ok (listContainsSub needle.data s.data)
  | .leaf _ => .error .typeError

/-- Python `doc[key]` for a parsed document: dict lookup (`KeyError` when
missing), `TypeError` for lists, strings and scalars. -/
def jSubscrTop (t : JTop) (key : String) : Except PyExn JVal :=
  match t with
  | .obj l =>
    match l.find? (fun p => p.1 = key) with
    | some p => .ok p.2
    | none => .error .keyError
  | _ => .error .typeError

/-- Python `v[key]` for a depth-one value.  The abstracted deep object
`lobj` is given `KeyError` semantics; theorems never rely on this case. -/
def jSubscrVal (v : JVal) (key : String) : Except PyExn JLeaf :=
  match v with
  | .obj l =>
    match l.find? (fun p => p.1 = key) with
    | some p => .ok p.2
    | none => .error .keyError
  | .leaf .lobj => .error .keyError
  | _ => .error .typeError

/-- Value of a digit string (helper for the `int()`/`float()` models). -/
def digitsVal? (l : List Char) : Option Nat :=
  if l ≠ [] && l.all (·.isDigit) then
    some (l.foldl (fun a c => a * 10 + (c.toNat - 48)) 0)
  else
    none

/-- Strip leading and trailing whitespace (Python's implicit strip in
`int(s)`/`float(s)`). -/
def stripSpace (l : List Char) : List Char :=
  ((l.dropWhile Char.isWhitespace).reverse.dropWhile Char.isWhitespace).reverse

/-- Python `int(s)` on a string: optional sign followed by digits
(underscore grouping is not modelled), otherwise `ValueError`. -/
def pyIntStr (s : String) : Except PyExn Int :=
  match stripSpace s.data with
  | '+' :: rest =>
    match digitsVal? rest with
    | some n => .ok (Int.ofNat n)
    | none => .error .valueError
  | '-' :: rest =>
    match digitsVal? rest with
    | some n => .ok (-(Int.ofNat n))
    | none => .error .valueError
  | l =>
    match digitsVal? l with
    | some n => .ok (Int.ofNat n)
    | none => .error .valueError

/-- Python `float(s)` on a string: optional sign, digits, optional
fractional part; otherwise `ValueError`. -/
def pyFloatStr (s : String) : Except PyExn ℚ :=
  let core : List Char → Except PyExn ℚ := fun l =>
    match l.splitOn '.' with
    | [ds] =>
      match digitsVal? ds with
      | some n => .ok (n : ℚ)
      | none => .error .valueError
    | [ds, fs] =>
      match digitsVal? ds, digitsVal? fs with
      | some n, some f => .ok ((n : ℚ) + (f : ℚ) / (10 : ℚ) ^ fs.length)
      | _, _ => .error .valueError
    | _ => .error .valueError
  match stripSpace s.data with
  | '+' :: rest => core rest
  | '-' :: rest => (core rest).map (fun q => -q)
  | l => core l

/-- Python `int(v)` on a depth-one JSON value: truncation toward zero for
numbers, 0/1 for booleans, string parsing, `TypeError` for `None` and
containers. -/
def pyIntVal : JVal → Except PyExn Int
  | .leaf (.lnum q) => .ok (q.num.tdiv (q.den : Int))
  | .leaf (.lbool b) => .ok (if b then 1 else 0)
  | .leaf (.lstr s) => pyIntStr s
  | .leaf .lnull => .error .typeError
  | .leaf .larr => .error .typeError
  | .leaf .lobj => .error .typeError
  | .arr _ => .error .typeError
  | .obj _ => .error .typeError

/-- Python `float(v)` on a depth-one JSON value. -/
def pyFloatVal : JVal → Except PyExn ℚ
  | .leaf (.lnum q) => .ok q
  | .leaf (.lbool b) => .ok (if b then 1 else 0)
  | .leaf (.lstr s) => pyFloatStr s
  | .leaf .lnull => .error .typeError
  | .leaf .larr => .error .typeError
  | .leaf .lobj => .error .typeError
  | .arr _ => .error .typeError
  | .obj _ => .error .typeError

/-- Python `round(q)`: round half to even (banker's rounding).  The
fractional remainder `q - ⌊q⌋ = (q.num - ⌊q⌋ * q.den) / q.den` is
compared against one half by cross-multiplication, keeping all
arithmetic in `ℤ`. -/
def pyRoundEven (q : ℚ) : Int :=
  let f := q.floor
  let r2 := 2 * (q.num - f * (q.den : Int))
  if r2 < (q.den : Int) then f
  else if (q.den : Int) < r2 then f + 1
  else if f % 2 = 0 then f else f + 1

/-- Python `round(q, 2)`: round half to even at two decimal places
(modelled exactly over `ℚ`). -/
def pyRound2 (q : ℚ) : ℚ :=
  ((pyRoundEven (q * 100) : ℚ)) / 100

/-! ## Transport/Auth client (`api.py`)

The HTTP transport is abstracted to outcome-valued functions: an attempt
either returns a response (`status`, parsed JSON body), times out, or
fails at the network level.  `aiohttp.ClientResponseError`,
`aiohttp.ClientError`, `socket.gaierror` and `TimeoutError` raised by the
retry block inside the `except FairlandApiClientAuthenticationError:`
handler are *not* caught by the outer clauses (Python semantics), so they
surface unwrapped; they are the `raw*` constructors. -/

/-- Errors that `api.py` can let escape to a caller:
the three `FairlandApiClient*Error` classes, the plain
`Exception("Not logged in")` from `_get_headers`, and the unwrapped
exceptions escaping the retry block. -/
inductive ApiError where
  | authErr
  | commErr
  | clientErr
  | notLoggedIn
  | rawTimeout
  | rawNet
  | rawHttp (status : Nat)
  | rawKeyError
deriving DecidableEq, Repr

/-- `isinstance(e, FairlandApiClientError)` — true exactly for the three
exception classes defined in `api.py` (authentication error subclasses
the base class). -/
def ApiError.isFairland : ApiError → Bool
  | .authErr => true
  | .commErr => true
  | .clientErr => true
  | _ => false

/-- One HTTP attempt's outcome as seen by the client code. -/
inductive HttpOutcome where
  | resp (status : Nat) (body : JTop)
  | timeout
  | netErr
deriving DecidableEq, Repr

/-- `FairlandApiClient` state: credentials plus the mutable session
token/user id (`None` until a login succeeds). -/
structure ApiClient where
  username : String
  password : String
  countryCode : String := "DE"
  phoneCode : String := "49"
  token : Option JLeaf := none
  userId : Option JLeaf := none
deriving DecidableEq, Repr

/-- The fixed request headers built by `_get_headers`. -/
structure Headers where
  contentType : String
  terminal : String
  authorization : JLeaf
  userAgent : String
  accept : String
deriving DecidableEq, Repr

/-- `_get_headers`: raises the plain `Exception("Not logged in")` when the
token is falsy, else returns the fixed header set carrying the raw token
as the `Authorization` value. -/
def getHeaders (c : ApiClient) : Except ApiError Headers :=
  match c.token with
  | none => .error .notLoggedIn
  | some t =>
    if t.falsy then .error .notLoggedIn
    else
      .ok { contentType := "application/json"
            terminal := "2"
            authorization := t
            userAgent := "Dart/3.5 (dart:io)"
            accept := "application/json;charset=UTF-8" }

/-- `login()`: posts credentials; a non-200 transport status or a
non-`200000` application code raises a plain `Exception` which the
method's own broad `except Exception` re-raises as
`FairlandApiClientError`; timeouts and network failures become
`FairlandApiClientCommunicationError`.  On success the token and user id
are stored (the token is stored *before* the user id is read, so a body
whose `data` lacks `userId` still mutates the token). -/
def loginRun (c : ApiClient) (o : HttpOutcome) : Except ApiError JVal × ApiClient :=
  match o with
  | .timeout => (.error .commErr, c)
  | .netErr => (.error .commErr, c)
  | .resp st body =>
    if st ≠ 200 then (.error .clientErr, c)
    else
      match jSubscrTop body "code" with
      | .error _ => (.error .clientErr, c)
      | .ok codeV =>
        if codeV ≠ JVal.leaf (.lnum 200000) then (.error .clientErr, c)
        else
          match jSubscrTop body "data" with
          | .error _ => (.error .clientErr, c)
          | .ok d =>
            match jSubscrVal d "authorization" with
            | .error _ => (.error .clientErr, c)
            | .ok a =>
              let c1 := { c with token := some a }
              match jSubscrVal d "userId" with
              | .error _ => (.error .clientErr, c1)
              | .ok u => (.ok d, { c1 with userId := some u })

/-- The retry block inside the authentication handler of `_api_wrapper`:
one plain request with `response.raise_for_status()` (which raises for
status ≥ 400) and `data["data"]` extraction.  Every failure here escapes
unwrapped because it is raised inside an `except` handler. -/
def retryRequest (o : HttpOutcome) : Except ApiError JVal :=
  match o with
  | .timeout => .error .rawTimeout
  | .netErr => .error .rawNet
  | .resp st body =>
    if st ≥ 400 then .error (.rawHttp st)
    else
      match jSubscrTop body "data" with
      | .ok v => .ok v
      | .error _ => .error .rawKeyError

/-- Result of one `_api_wrapper` call: the returned value or escaping
error, the number of HTTP requests issued for the wrapped URL, the number
of `login()` calls performed, and the client state afterwards. -/
structure WrapOut where
  result : Except ApiError JVal
  requests : Nat
  logins : Nat
  client : ApiClient
deriving Repr

/-- `_api_wrapper(method, url, payload)` with `headers=None` (every domain
operation passes no headers).  `net` gives the transport outcome of each
attempt as a function of the attempt index and the headers sent;
`loginO` is the transport outcome `login()` would see if invoked.

Control flow from the source: `_get_headers()` runs *before* the `try`
block, so `Exception("Not logged in")` escapes unwrapped.  Status
401/403 raises `FairlandApiClientAuthenticationError`, whose handler
logs in again, rebuilds headers and retries once; any other
status ≥ 400 and any timeout/network failure become
`FairlandApiClientCommunicationError`; a missing `data` key in a 2xx
body becomes `FairlandApiClientError` via the broad handler. -/
def apiWrapper (c : ApiClient) (loginO : HttpOutcome)
    (net : Nat → Headers → HttpOutcome) : WrapOut :=
  match getHeaders c with
  | .error e => ⟨.error e, 0, 0, c⟩
  | .ok h =>
    match net 0 h with
    | .timeout => ⟨.error .commErr, 1, 0, c⟩
    | .netErr => ⟨.error .commErr, 1, 0, c⟩
    | .resp st body =>
      if st = 401 ∨ st = 403 then
        match loginRun c loginO with
        | (.error e, c') => ⟨.error e, 1, 1, c'⟩
        | (.ok _, c') =>
          match getHeaders c' with
          | .error e => ⟨.error e, 1, 1, c'⟩
          | .ok h2 => ⟨retryRequest (net 1 h2), 2, 1, c'⟩
      else if st ≥ 400 then ⟨.error .commErr, 1, 0, c⟩
      else
        match jSubscrTop body "data" with
        | .ok v => ⟨.ok v, 1, 0, c⟩
        | .error _ => ⟨.error .clientErr, 1, 0, c⟩

/-- `get_courtyards()`: a thin `_api_wrapper` call. -/
def getCourtyards (c : ApiClient) (loginO : HttpOutcome)
    (net : Nat → Headers → HttpOutcome) : WrapOut :=
  apiWrapper c loginO net

/-- `get_all_devices_in_courtyard(id)`: `_api_wrapper` followed by a
`data["bindDeviceInfos"]` subscript whose `KeyError`/`TypeError` would
escape unwrapped. -/
def getAllDevicesInCourtyard (c : ApiClient) (loginO : HttpOutcome)
    (net : Nat → Headers → HttpOutcome) : WrapOut :=
  let w := apiWrapper c loginO net
  match w.result with
  | .ok d =>
    match jSubscrVal d "bindDeviceInfos" with
    | .ok v => { w with result := .ok (JVal.leaf v) }
    | .error _ => { w with result := .error .rawKeyError }
  | .error _ => w

/-- `get_device_status(device_id)`: a thin `_api_wrapper` call. -/
def getDeviceStatus (c : ApiClient) (loginO : HttpOutcome)
    (net : Nat → Headers → HttpOutcome) : WrapOut :=
  apiWrapper c loginO net

/-- `set_device_status(device_id, dp_id, value)`: a thin `_api_wrapper`
call. -/
def setDeviceStatus (c : ApiClient) (loginO : HttpOutcome)
    (net : Nat → Headers → HttpOutcome) : WrapOut :=
  apiWrapper c loginO net

/-! ## Update coordinator (`coordinator.py`)

`_async_update_data` is embedded as a pure function of the device-list
fetch result and a per-device status fetch.  The fetches are typed here
(decoded device records) — the JSON decoding itself is not inspected by
the coordinator. -/

/-- One data-point record `{dpId, dpValue, dpMode, dpProperty}`.
`dpProperty` is carried as the outcome `json.loads` would produce on it
(`none` = field absent). -/
structure Dp where
  dpId : String
  dpValue : JLeaf
  dpMode : String
  dpProperty : Option JParse := none
deriving DecidableEq, Repr

/-- One device record as the list endpoint returns it. -/
structure Device where
  id : String
  deviceName : String
  categoryCode : String
  dps : List Dp
deriving DecidableEq, Repr

/-- What one `_async_update_data` call does: return a snapshot, raise
`UpdateFailed`, or let a non-`FairlandApiClientError` exception escape. -/
inductive CycleResult where
  | ok (snapshot : List Device)
  | updateFailed
  | raised (e : ApiError)
deriving DecidableEq, Repr

/-- The per-device loop of `_async_update_data`: on a successful status
fetch the device's `dps` are replaced (`device.copy()` then
`updated_device["dps"] = device_status`); a `FairlandApiClient*Error` is
caught and the *device-list entry* is appended unchanged; any other
exception escapes the loop. -/
def updateLoop (statusOf : String → Except ApiError (List Dp)) :
    List Device → Except ApiError (List Device)
  | [] => .ok []
  | d :: rest =>
    match statusOf d.id with
    | .ok st => (updateLoop statusOf rest).map (fun r => { d with dps := st } :: r)
    | .error e =>
      if e.isFairland then (updateLoop statusOf rest).map (fun r => d :: r)
      else .error e

/-- `_async_update_data`: a `FairlandApiClient*Error` from the list fetch
(or escaping the loop) raises `UpdateFailed`; other exceptions propagate
as themselves; otherwise the merged device list is returned. -/
def asyncUpdateData (listRes : Except ApiError (List Device))
    (statusOf : String → Except ApiError (List Dp)) : CycleResult :=
  match listRes with
  | .error e => if e.isFairland then .updateFailed else .raised e
  | .ok devices =>
    match updateLoop statusOf devices with
    | .ok snapshot => .ok snapshot
    | .error e => .raised e

/-- The coordinator's published state: the last snapshot handed to
subscribers and the `last_update_success` flag. -/
structure CoordState where
  data : List Device
  lastUpdateSuccess : Bool
deriving DecidableEq, Repr

/-- Modelled from the spec: the host framework's refresh step (the
`DataUpdateCoordinator` owning `_async_update_data`, outside this
repository).  A successful cycle publishes the new snapshot and sets the
success flag; a failed cycle (`UpdateFailed` or any other exception)
keeps the previously published data and clears the flag. -/
def applyRefresh (s : CoordState) (r : CycleResult) : CoordState :=
  match r with
  | .ok snapshot => ⟨snapshot, true⟩
  | .updateFailed => ⟨s.data, false⟩
  | .raised _ => ⟨s.data, false⟩

/-! ## Number platform (`number.py`) -/

/-- One `NUMBER_TYPES` registry entry (presentation-only fields `icon`,
`mode`, `entity_category` are carried as plain strings). -/
structure NumberConfig where
  name : String
  unit : Option String
  icon : String
  min : ℚ
  max : ℚ
  step : ℚ
  mode : String
  entityCategory : String := "config"
deriving DecidableEq, Repr

/-- The static `NUMBER_TYPES` registry. -/
def NUMBER_TYPES : List (String × NumberConfig) :=
  [ ("116", { name := "Set Water Pump Mode", unit := none,
              icon := "mdi:water-pump", min := 0, max := 2, step := 1,
              mode := "slider" }),
    ("117", { name := "Set Water Pump Time", unit := some "min",
              icon := "mdi:timer", min := 10, max := 120, step := 5,
              mode := "slider" }),
    ("118", { name := "Set Defrosting Interval", unit := some "min",
              icon := "mdi:snowflake-melt", min := 30, max := 90, step := 1,
              mode := "box" }),
    ("119", { name := "Set Defrosting Start Temperature", unit := some "°C",
              icon := "mdi:thermometer-low", min := -30, max := 250, step := 1,
              mode := "box" }),
    ("120", { name := "Set Defrosting Running Time", unit := some "min",
              icon := "mdi:timer", min := 1, max := 12, step := 1,
              mode := "box" }),
    ("121", { name := "Set Defrosting Quit Temperature", unit := some "°C",
              icon := "mdi:thermometer", min := 8, max := 100, step := 1,
              mode := "box" }) ]

/-- One `config[key] = float(prop[key])` override attempt from
`number.async_setup_entry`: absent key keeps the default, any exception
propagates to the surrounding broad `except`. -/
def tryField (t : JTop) (key : String) (dflt : ℚ) : Except PyExn ℚ :=
  match jContains key t with
  | .error e => .error e
  | .ok false => .ok dflt
  | .ok true =>
    match jSubscrTop t key with
    | .error e => .error e
    | .ok v => pyFloatVal v

/-- The `min`/`max`/`step` override block of `number.async_setup_entry`
for one parsed `dpProperty`: overrides are applied in source order and a
failure anywhere is caught by the broad `except`, keeping the overrides
already applied and dropping the rest. -/
def numberApply (cfg : NumberConfig) (t : JTop) : NumberConfig :=
  match tryField t "min" cfg.min with
  | .error _ => cfg
  | .ok mn =>
    let c1 := { cfg with min := mn }
    match tryField t "max" cfg.max with
    | .error _ => c1
    | .ok mx =>
      let c2 := { c1 with max := mx }
      match tryField t "step" cfg.step with
      | .error _ => c2
      | .ok st => { c2 with step := st }

/-- Effective number-entity configuration: registry entry refined by the
device's `dpProperty` when present and parseable (`number.py` lines
110-127). -/
def resolveNumberConfig (cfg : NumberConfig) (p : Option JParse) : NumberConfig :=
  match p with
  | none => cfg
  | some .malformed => cfg
  | some (.parsed t) => numberApply cfg t

/-- A `set_device_status(device_id, dp_id, value)` command as the entity
layer issues it. -/
structure SetCmd where
  deviceId : String
  dpId : String
  value : JLeaf
deriving DecidableEq, Repr

/-- The rounding rule of `FairlandNumber.async_set_native_value`: a
whole-numbered step rounds the input to the nearest integer
(`int(round(value))`), a fractional step rounds to two decimals
(`round(value, 2)`).  The step itself is never consulted beyond the
integrality test. -/
def roundForStep (step value : ℚ) : ℚ :=
  if step.den = 1 then ((pyRoundEven value : ℤ) : ℚ) else pyRound2 value

/-- `async_set_native_value`: the command sent to the server for a given
input (transport assumed reachable; a transport failure is caught and
logged, sending nothing further). -/
def setNativeValueCommand (deviceId dpId : String) (cfg : NumberConfig)
    (value : ℚ) : SetCmd :=
  ⟨deviceId, dpId, .lnum (roundForStep cfg.step value)⟩

/-! ## Sensor platform (`sensor.py`) -/

/-- One `SENSOR_TYPES` registry entry (icon/device-class/state-class are
presentation-only and elided; `diagnostic` records the
`EntityCategory.DIAGNOSTIC` marker). -/
structure SensorConfig where
  name : String
  unit : Option String
  scale : Option Int := none
  diagnostic : Bool := false
deriving DecidableEq, Repr

/-- The static `SENSOR_TYPES` registry. -/
def SENSOR_TYPES : List (String × SensorConfig) :=
  [ ("103", { name := "Inlet Water Temperature", unit := some "°C" }),
    ("129", { name := "Outlet Water Temperature", unit := some "°C" }),
    ("130", { name := "Ambient Temperature", unit := some "°C" }),
    ("131", { name := "Exhaust Temperature", unit := some "°C" }),
    ("132", { name := "Outer Coil Pipe Temperature", unit := some "°C" }),
    ("133", { name := "Gas Return Temperature", unit := some "°C" }),
    ("134", { name := "Inner Coil Pipe Temperature", unit := some "°C" }),
    ("135", { name := "Cooling Plate Temperature", unit := some "°C" }),
    ("105", { name := "Running Percentage", unit := some "%" }),
    ("112", { name := "Power", unit := some "kW", scale := some 3 }),
    ("137", { name := "DC Fan Speed", unit := some "r/min" }),
    ("136", { name := "Electronic Expansion Valve Opening", unit := none }),
    ("108", { name := "Lower Temperature Limit", unit := some "°C", diagnostic := true }),
    ("109", { name := "Upper Temperature Limit", unit := some "°C", diagnostic := true }),
    ("113", { name := "Power Display Status", unit := none, diagnostic := true }),
    ("114", { name := "Refrigeration Function", unit := none, diagnostic := true }),
    ("115", { name := "Overclocking Function", unit := none, diagnostic := true }),
    ("116", { name := "Water Pump Running Mode", unit := none, diagnostic := true }),
    ("117", { name := "Water Pump Running Time", unit := some "min", diagnostic := true }),
    ("118", { name := "Defrosting Interval", unit := some "min", diagnostic := true }),
    ("119", { name := "Defrosting Start Temperature", unit := some "°C", diagnostic := true }),
    ("120", { name := "Defrosting Running Time", unit := some "min", diagnostic := true }),
    ("121", { name := "Defrosting Quit Temperature", unit := some "°C", diagnostic := true }),
    ("122", { name := "Compressor Speed Control", unit := none, diagnostic := true }),
    ("123", { name := "EEV Superheat Heating", unit := some "°C", diagnostic := true }),
    ("124", { name := "EEV Superheat Cooling", unit := some "°C", diagnostic := true }),
    ("125", { name := "EEV Control Mode", unit := none, diagnostic := true }),
    ("126", { name := "EEV Manual Opening Heating", unit := none, diagnostic := true }),
    ("127", { name := "EEV Manual Opening Cooling", unit := none, diagnostic := true }),
    ("128", { name := "Power-off Memory Function", unit := none, diagnostic := true }) ]

/-- The body of the sensor `dpProperty` try-block
(`sensor.async_setup_entry` lines 289-292): membership test, subscript,
`int()` conversion, override of `scale`. -/
def sensorTry (cfg : SensorConfig) (t : JTop) : Except PyExn SensorConfig :=
  match jContains "scale" t with
  | .error e => .error e
  | .ok false => .ok cfg
  | .ok true =>
    match jSubscrTop t "scale" with
    | .error e => .error e
    | .ok v =>
      match pyIntVal v with
      | .error e => .error e
      | .ok n => .ok { cfg with scale := some n }

/-- The sensor scale refinement for one data point: applied only to dp
`"112"` with a `dpProperty` present; the `except` clause catches only
`json.JSONDecodeError`, `KeyError` and `ValueError`, so a `TypeError`
raised by the try-block escapes and aborts platform setup. -/
def resolveSensorScale (cfg : SensorConfig) (dpId : String)
    (p : Option JParse) : Except PyExn SensorConfig :=
  if dpId = "112" then
    match p with
    | none => .ok cfg
    | some .malformed => .ok cfg
    | some (.parsed t) =>
      match sensorTry cfg t with
      | .ok c => .ok c
      | .error e =>
        if e = .keyError ∨ e = .valueError then .ok cfg else .error e
  else .ok cfg

/-- Effective scale of a sensor: `sensor_config.get("scale", 0)`. -/
def effectiveScale (cfg : SensorConfig) : Int :=
  cfg.scale.getD 0

/-- The `dp_map` lookup `{item["dpId"]: item for item in dps}[dpId]`: a
dict comprehension keeps the *last* record for a duplicated id. -/
def dpMapLookup (dps : List Dp) (dpId : String) : Option Dp :=
  dps.reverse.find? (fun dp => dp.dpId = dpId)

/-- The scaling step of `FairlandSensor._update_state`:
`if scale > 0 and value is not None: value = value / (10 ** scale)`.
Dividing a non-numeric value would raise a `TypeError`. -/
def applyScale (scale : Int) (v : JLeaf) : Except PyExn JLeaf :=
  if 0 < scale ∧ v ≠ .lnull then
    match v with
    | .lnum q => .ok (.lnum (q / (10 : ℚ) ^ scale.toNat))
    | .lbool b => .ok (.lnum ((if b then 1 else 0) / (10 : ℚ) ^ scale.toNat))
    | _ => .error .typeError
  else .ok v

/-- `FairlandSensor._update_state`: locate the entity's data point in the
device's `dps`; found ⇒ scaled native value and `available = True`,
missing ⇒ no value update and `available = False`. -/
def sensorUpdateState (scale : Int) (dps : List Dp) (dpId : String) :
    Except PyExn (Option JLeaf × Bool) :=
  match dpMapLookup dps dpId with
  | some dp => (applyScale scale dp.dpValue).map (fun v => (some v, true))
  | none => .ok (none, false)

/-! ## Climate platform (`climate.py`) -/

/-- Python dict insertion: overwrite in place when the key exists, append
otherwise. -/
def dinsert {α β : Type} [DecidableEq α] (m : List (α × β)) (k : α) (v : β) :
    List (α × β) :=
  if m.any (fun p => p.1 = k) then
    m.map (fun p => if p.1 = k then (k, v) else p)
  else m ++ [(k, v)]

/-- Python dict lookup (`d.get(k)`). -/
def dlookup {α β : Type} [DecidableEq α] (m : List (α × β)) (k : α) : Option β :=
  (m.find? (fun p => p.1 = k)).map (·.2)

/-- Whether a parsed JSON value may be a Python dict key (lists and dicts
are unhashable). -/
def JVal.hashable : JVal → Bool
  | .leaf .larr => false
  | .leaf .lobj => false
  | .arr _ => false
  | .obj _ => false
  | .leaf _ => true

/-- The first loop of `_setup_preset_modes`:
`for value, name in mode_mapping.items(): map[int(value)] = name`.
`int(value)` raising aborts the whole try-block, keeping the entries
inserted so far (the flag records completion). -/
def buildForward : List (String × JVal) → List (Int × JVal) →
    List (Int × JVal) × Bool
  | [], acc => (acc, true)
  | (k, v) :: rest, acc =>
    match pyIntStr k with
    | .ok n => buildForward rest (dinsert acc n v)
    | .error _ => (acc, false)

/-- The second loop of `_setup_preset_modes`:
`for value, name in mode_mapping.items(): rev[name] = int(value)`.
Either `int(value)` raising or an unhashable name aborts, keeping the
entries inserted so far. -/
def buildReverse : List (String × JVal) → List (JVal × Int) →
    List (JVal × Int) × Bool
  | [], acc => (acc, true)
  | (k, v) :: rest, acc =>
    match pyIntStr k with
    | .ok n =>
      if v.hashable then buildReverse rest (dinsert acc v n)
      else (acc, false)
    | .error _ => (acc, false)

/-- `_setup_preset_modes` as a function of the `json.loads` outcome of dp
`"102"`'s `dpProperty` (`none` = data point or property absent): the
broad `except Exception` turns a parse failure, a non-dict document or a
loop abort into a silently degraded (possibly partial, possibly empty)
pair of mappings. -/
def setupPresetModes (p : Option JParse) :
    List (Int × JVal) × List (JVal × Int) :=
  match p with
  | none => ([], [])
  | some .malformed => ([], [])
  | some (.parsed (.obj pairs)) =>
    let (fwd, ok1) := buildForward pairs []
    if ok1 then
      let (rev, _) := buildReverse pairs []
      (fwd, rev)
    else (fwd, [])
  | some (.parsed _) => ([], [])

/-- Home Assistant HVAC modes used by the integration. -/
inductive HVMode where
  | off
  | heat
  | cool
  | auto
deriving DecidableEq, Repr

/-- Home Assistant HVAC actions used by the integration. -/
inductive HVAction where
  | off
  | idle
  | heating
  | cooling
deriving DecidableEq, Repr

/-- `HVAC_MODE_MAP`: Fairland mode number to Home Assistant mode. -/
def HVAC_MODE_MAP : List (ℚ × HVMode) :=
  [(0, .auto), (1, .heat), (2, .cool)]

/-- `HVAC_MODE_REVERSE_MAP` (OFF maps to `None` and is handled
separately). -/
def HVAC_MODE_REVERSE_MAP : HVMode → Option ℚ
  | .auto => some 0
  | .heat => some 1
  | .cool => some 2
  | .off => none

/-- The method names the `FairlandApiClient` class actually defines;
looking up any other attribute raises `AttributeError`. -/
def clientMethods : List String :=
  ["login", "get_courtyards", "get_all_devices_in_courtyard",
   "get_device_status", "set_device_status"]

/-- Attribute lookup plus call of a client set-style method: yields the
issued command, or `AttributeError` when the name is not defined on the
client (the transport itself is assumed reachable — a transport failure
is likewise swallowed by the callers' broad `except`). -/
def invokeSet (method deviceId dpId : String) (v : JLeaf) :
    Except PyExn SetCmd :=
  if method ∈ clientMethods then .ok ⟨deviceId, dpId, v⟩
  else .error .attrError

/-- Cached climate entity command state. -/
structure ClimState where
  isOn : JLeaf
  hvacMode : HVMode
  hvacAction : HVAction
deriving DecidableEq, Repr

/-- `async_turn_on`: calls `self...client.set_device_statuss` — a
misspelling, so the lookup raises `AttributeError` before any request is
sent; the broad `except` logs it and leaves the state unchanged.  Had
the call succeeded, `_is_on` would be set and an OFF mode bumped to
AUTO. -/
def asyncTurnOn (devId : String) (s : ClimState) : ClimState × List SetCmd :=
  match invokeSet "set_device_statuss" devId "101" (.lbool true) with
  | .ok cmd =>
    let s1 := { s with isOn := .lbool true }
    let s2 := if s1.hvacMode = .off then { s1 with hvacMode := .auto } else s1
    (s2, [cmd])
  | .error _ => (s, [])

/-- `async_turn_off`: a power-off `set_device_status` on dp `"101"`; on
success the cached state becomes OFF. -/
def asyncTurnOff (devId : String) (s : ClimState) : ClimState × List SetCmd :=
  match invokeSet "set_device_status" devId "101" (.lbool false) with
  | .ok cmd =>
    ({ s with isOn := .lbool false, hvacMode := .off, hvacAction := .off }, [cmd])
  | .error _ => (s, [])

/-- `async_set_hvac_mode`: OFF delegates to `async_turn_off`; otherwise,
if the cached power state is falsy, `async_turn_on` runs first, then the
mode command is sent on dp `"106"`. -/
def asyncSetHvacMode (devId : String) (m : HVMode) (s : ClimState) :
    ClimState × List SetCmd :=
  if m = .off then asyncTurnOff devId s
  else
    let (s1, cs1) :=
      if s.isOn.falsy then asyncTurnOn devId s else (s, [])
    match HVAC_MODE_REVERSE_MAP m with
    | some v =>
      match invokeSet "set_device_status" devId "106" (.lnum v) with
      | .ok cmd => ({ s1 with hvacMode := m }, cs1 ++ [cmd])
      | .error _ => (s1, cs1)
    | none => (s1, cs1)

/-! ## Theorems about the claims -/

/-- C1 counterexample: two consecutive cycles over device `"A"`.  Cycle 1
succeeds everywhere and publishes the device with the freshly fetched
data points.  In cycle 2 the list fetch succeeds (returning `"A"` with
different `dps`) and the per-device fetch fails with a communication
error.  The cycle still succeeds, but the published entry for `"A"` is
the *current list-fetch entry*, not the entry from the previous
snapshot, refuting the claimed equality. -/
theorem perDeviceFallback_notPreviousSnapshot :
    (applyRefresh
        (applyRefresh ⟨[], false⟩
          (asyncUpdateData
            (.ok [⟨"A", "Pool Pump", "heatPump", [⟨"103", .lnum 20, "ro", none⟩]⟩])
            (fun _ => .ok [⟨"103", .lnum 21, "ro", none⟩])))
        (asyncUpdateData
          (.ok [⟨"A", "Pool Pump", "heatPump", [⟨"103", .lnum 25, "ro", none⟩]⟩])
          (fun _ => .error .commErr))).lastUpdateSuccess = true ∧
    (applyRefresh ⟨[], false⟩
        (asyncUpdateData
          (.ok [⟨"A", "Pool Pump", "heatPump", [⟨"103", .lnum 20, "ro", none⟩]⟩])
          (fun _ => .ok [⟨"103", .lnum 21, "ro", none⟩]))).data.head? =
      some ⟨"A", "Pool Pump", "heatPump", [⟨"103", .lnum 21, "ro", none⟩]⟩ ∧
    (applyRefresh
        (applyRefresh ⟨[], false⟩
          (asyncUpdateData
            (.ok [⟨"A", "Pool Pump", "heatPump", [⟨"103", .lnum 20, "ro", none⟩]⟩])
            (fun _ => .ok [⟨"103", .lnum 21, "ro", none⟩])))
        (asyncUpdateData
          (.ok [⟨"A", "Pool Pump", "heatPump", [⟨"103", .lnum 25, "ro", none⟩]⟩])
          (fun _ => .error .commErr))).data.head? =
      some ⟨"A", "Pool Pump", "heatPump", [⟨"103", .lnum 25, "ro", none⟩]⟩ ∧
    (⟨"A", "Pool Pump", "heatPump", [⟨"103", .lnum 25, "ro", none⟩]⟩ : Device) ≠
      ⟨"A", "Pool Pump", "heatPump", [⟨"103", .lnum 21, "ro", none⟩]⟩ := by
  refine ⟨rfl, rfl, rfl, by decide⟩

/-- C1 amended: when the device-list fetch succeeds and every per-device
failure is a `FairlandApiClient*Error`, the cycle succeeds as a whole and
each device whose fetch failed appears in the published snapshot as its
entry from the *current* device-list fetch (its `dps` as the list
endpoint delivered them), not as its entry from the previous snapshot. -/
theorem perDeviceFallback_usesListEntry (devices : List Device)
    (statusOf : String → Except ApiError (List Dp))
    (hfair : ∀ d ∈ devices, ∀ e, statusOf d.id = .error e →
      e.isFairland = true) :
    asyncUpdateData (.ok devices) statusOf =
      .ok (devices.map (fun d =>
        match statusOf d.id with
        | .ok st => { d with dps := st }
        | .error _ => d)) := by
  have hloop : updateLoop statusOf devices =
      .ok (devices.map (fun d =>
        match statusOf d.id with
        | .ok st => { d with dps := st }
        | .error _ => d)) := by
    induction devices with
    | nil => rfl
    | cons d rest ih =>
      have hrest := ih (fun d' hd' e he =>
        hfair d' (List.mem_cons_of_mem d hd') e he)
      cases hs : statusOf d.id with
      | ok st =>
        simp [updateLoop, hs, hrest, Except.map]
      | error e =>
        have hf := hfair d (List.mem_cons_self d rest) e hs
        simp [updateLoop, hs, hf, hrest, Except.map]
  simp [asyncUpdateData, hloop]

/-- Witness for the amended C1: one device whose status fetch fails with
a communication error; the resulting snapshot carries the list entry. -/
theorem perDeviceFallback_usesListEntry_witness :
    asyncUpdateData
        (.ok [⟨"A", "Pool Pump", "heatPump", [⟨"103", .lnum 25, "ro", none⟩]⟩])
        (fun _ => .error ApiError.commErr) =
      .ok [⟨"A", "Pool Pump", "heatPump", [⟨"103", .lnum 25, "ro", none⟩]⟩] := by
  have h := perDeviceFallback_usesListEntry
    [⟨"A", "Pool Pump", "heatPump", [⟨"103", .lnum 25, "ro", none⟩]⟩]
    (fun _ => .error ApiError.commErr)
    (by intro d _ e he; cases he; rfl)
  simpa using h

/-- C2: a `FairlandApiClientCommunicationError` or `FairlandApiClientError`
from the device-list fetch makes `_async_update_data` raise `UpdateFailed`
(returning no partial list), so the framework keeps the previously
published snapshot unchanged and clears the last-cycle-succeeded flag. -/
theorem listFetchFailure_failsCycle (s : CoordState) (e : ApiError)
    (statusOf : String → Except ApiError (List Dp))
    (he : e = .commErr ∨ e = .clientErr) :
    asyncUpdateData (.error e) statusOf = .updateFailed ∧
    applyRefresh s (asyncUpdateData (.error e) statusOf) =
      ⟨s.data, false⟩ := by
  rcases he with he | he <;> subst he <;>
    simp [asyncUpdateData, ApiError.isFairland, applyRefresh]

/-- Witness for C2: a concrete communication error on the list fetch of a
coordinator that had published one device keeps that device published and
clears the flag. -/
theorem listFetchFailure_failsCycle_witness :
    asyncUpdateData (.error ApiError.commErr) (fun _ => .ok []) =
      .updateFailed ∧
    applyRefresh ⟨[⟨"A", "Pool Pump", "heatPump", []⟩], true⟩
        (asyncUpdateData (.error ApiError.commErr) (fun _ => .ok [])) =
      ⟨[⟨"A", "Pool Pump", "heatPump", []⟩], false⟩ :=
  listFetchFailure_failsCycle ⟨[⟨"A", "Pool Pump", "heatPump", []⟩], true⟩
    .commErr (fun _ => .ok []) (Or.inl rfl)

/-- C3: when the first attempt of `_api_wrapper` returns HTTP 401 or 403
(classified as `FairlandApiClientAuthenticationError` by
`_verify_response_or_raise`), exactly one `login()` runs; if that login
succeeds and yields a usable token, exactly one retry of the original
request is issued with the headers rebuilt from the refreshed token, and
the retry's outcome — success or failure — is returned as-is with no
further retry or re-login (a failing login likewise propagates with no
retry). -/
theorem authError_oneLoginOneRetry (c : ApiClient) (loginO : HttpOutcome)
    (net : Nat → Headers → HttpOutcome) (h : Headers) (st : Nat) (body : JTop)
    (hh : getHeaders c = .ok h) (hf : net 0 h = .resp st body)
    (hst : st = 401 ∨ st = 403) :
    (apiWrapper c loginO net).logins = 1 ∧
    (apiWrapper c loginO net).requests ≤ 2 ∧
    (∀ e c', loginRun c loginO = (.error e, c') →
      apiWrapper c loginO net =
        ⟨.error e, 1, 1, c'⟩) ∧
    (∀ d c' h2, loginRun c loginO = (.ok d, c') → getHeaders c' = .ok h2 →
      apiWrapper c loginO net =
        ⟨retryRequest (net 1 h2), 2, 1, c'⟩) := by
  have hcond : (st = 401 ∨ st = 403) = True := eq_true hst
  have hbase : apiWrapper c loginO net =
      match loginRun c loginO with
      | (.error e, c') => ⟨.error e, 1, 1, c'⟩
      | (.ok _, c') =>
        match getHeaders c' with
        | .error e => ⟨.error e, 1, 1, c'⟩
        | .ok h2 => ⟨retryRequest (net 1 h2), 2, 1, c'⟩ := by
    simp only [apiWrapper, hh, hf, hcond, if_true]
  refine ⟨?_, ?_, ?_, ?_⟩
  · rw [hbase]
    split
    · rfl
    · split <;> rfl
  · rw [hbase]
    split
    · simp
    · split <;> simp
  · intro e c' hlr
    rw [hbase, hlr]
  · intro d c' h2 hlr hgh
    rw [hbase, hlr]
    simp only [hgh]

/-- Witness for C3: a concrete 401 first attempt, successful re-login and
successful retry — one login, two requests, the retried response's data
returned. -/
theorem authError_oneLoginOneRetry_witness :
    apiWrapper
        { username := "u", password := "p", token := some (.lstr "stale") }
        (.resp 200 (.obj
          [("code", .leaf (.lnum 200000)),
           ("data", .obj [("authorization", .lstr "fresh"),
                          ("userId", .lstr "u1")])]))
        (fun i _ =>
          if i = 0 then .resp 401 (.obj [])
          else .resp 200 (.obj [("data", .leaf (.lnum 7))])) =
      ⟨.ok (.leaf (.lnum 7)), 2, 1,
        { username := "u", password := "p",
          token := some (.lstr "fresh"), userId := some (.lstr "u1") }⟩ := by
  have h := (authError_oneLoginOneRetry
    { username := "u", password := "p", token := some (.lstr "stale") }
    (.resp 200 (.obj
      [("code", .leaf (.lnum 200000)),
       ("data", .obj [("authorization", .lstr "fresh"),
                      ("userId", .lstr "u1")])]))
    (fun i _ =>
      if i = 0 then .resp 401 (.obj [])
      else .resp 200 (.obj [("data", .leaf (.lnum 7))]))
    { contentType := "application/json", terminal := "2",
      authorization := .lstr "stale", userAgent := "Dart/3.5 (dart:io)",
      accept := "application/json;charset=UTF-8" }
    401 (.obj []) rfl rfl (Or.inl rfl)).2.2.2
    (.obj [("authorization", .lstr "fresh"), ("userId", .lstr "u1")])
    { username := "u", password := "p",
      token := some (.lstr "fresh"), userId := some (.lstr "u1") }
    { contentType := "application/json", terminal := "2",
      authorization := .lstr "fresh", userAgent := "Dart/3.5 (dart:io)",
      accept := "application/json;charset=UTF-8" }
    rfl rfl
  rw [h]
  rfl

/-- C4 counterexample: for the number entity of dp `"117"`
(`min=10, max=120, step=5` in `NUMBER_TYPES`), set-value with input 53
sends 53 to the server — `int(round(53))`, since the step is
whole-numbered — not 55, the nearest multiple of the step. -/
theorem setValue117_sends53_not55 :
    dlookup NUMBER_TYPES "117" =
      some { name := "Set Water Pump Time", unit := some "min",
             icon := "mdi:timer", min := 10, max := 120, step := 5,
             mode := "slider" } ∧
    setNativeValueCommand "dev" "117"
        { name := "Set Water Pump Time", unit := some "min",
          icon := "mdi:timer", min := 10, max := 120, step := 5,
          mode := "slider" } 53 =
      ⟨"dev", "117", .lnum 53⟩ ∧
    JLeaf.lnum 53 ≠ JLeaf.lnum 55 := by
  refine ⟨by decide, ?_, by decide⟩
  show SetCmd.mk "dev" "117" (.lnum (roundForStep 5 53)) = _
  have : roundForStep 5 53 = 53 := by decide
  rw [this]

/-- C4 amended: for the dp `"117"` number entity the value sent is the
input rounded to the nearest integer (`round` half-to-even), because the
registry step 5 is whole-numbered; the step multiple is never consulted,
so input 53 sends 53. -/
theorem setValue117_roundsToInteger (devId : String) (v : ℚ)
    (cfg : NumberConfig) (hcfg : dlookup NUMBER_TYPES "117" = some cfg) :
    setNativeValueCommand devId "117" cfg v =
      ⟨devId, "117", .lnum ((pyRoundEven v : ℤ) : ℚ)⟩ ∧
    setNativeValueCommand devId "117" cfg 53 =
      ⟨devId, "117", .lnum 53⟩ := by
  have hc : cfg = { name := "Set Water Pump Time", unit := some "min",
                    icon := "mdi:timer", min := 10, max := 120, step := 5,
                    mode := "slider" } := by
    have h := hcfg
    simp [dlookup, NUMBER_TYPES, List.find?] at h
    exact h.symm
  subst hc
  constructor
  · show SetCmd.mk devId "117" (.lnum (roundForStep 5 v)) = _
    have : roundForStep 5 v = ((pyRoundEven v : ℤ) : ℚ) := by
      simp [roundForStep]
    rw [this]
  · show SetCmd.mk devId "117" (.lnum (roundForStep 5 53)) = _
    have : roundForStep 5 53 = 53 := by decide
    rw [this]

/-- Witness for the amended C4: with the registry entry for `"117"`,
input 53 sends 53 and input 53 rounds via `pyRoundEven`. -/
theorem setValue117_roundsToInteger_witness :
    setNativeValueCommand "dev" "117"
        { name := "Set Water Pump Time", unit := some "min",
          icon := "mdi:timer", min := 10, max := 120, step := 5,
          mode := "slider" } 53 =
      ⟨"dev", "117", .lnum 53⟩ :=
  (setValue117_roundsToInteger "dev" 53
    { name := "Set Water Pump Time", unit := some "min",
      icon := "mdi:timer", min := 10, max := 120, step := 5,
      mode := "slider" } (by decide)).2

/-- C5 counterexample: `login()` against an HTTP 500 response fails with
the generic `FairlandApiClientError` — the plain `Exception` it raises is
swallowed by its own broad `except` — not with
`FairlandApiClientAuthenticationError` as claimed. -/
theorem loginNon200_isClientError_notAuthError :
    loginRun { username := "u", password := "p" } (.resp 500 (.obj [])) =
      (.error .clientErr, { username := "u", password := "p" }) ∧
    ApiError.clientErr ≠ ApiError.authErr := by
  exact ⟨rfl, by decide⟩

/-- C5 amended: `login()` fails with the generic `FairlandApiClientError`
on a non-200 transport status or a non-`200000` application code, and
with `FairlandApiClientCommunicationError` on timeout or network
failure; on success it stores the token and user id on the client and
returns the session data. -/
theorem loginRun_classification (c : ApiClient) (st : Nat) (body : JTop) :
    (st ≠ 200 → loginRun c (.resp st body) = (.error .clientErr, c)) ∧
    (∀ v, st = 200 → jSubscrTop body "code" = .ok v →
      v ≠ JVal.leaf (.lnum 200000) →
      loginRun c (.resp st body) = (.error .clientErr, c)) ∧
    loginRun c .timeout = (.error .commErr, c) ∧
    loginRun c .netErr = (.error .commErr, c) ∧
    (∀ d a u, st = 200 → jSubscrTop body "code" = .ok (JVal.leaf (.lnum 200000)) →
      jSubscrTop body "data" = .ok d →
      jSubscrVal d "authorization" = .ok a → jSubscrVal d "userId" = .ok u →
      loginRun c (.resp st body) =
        (.ok d, { c with token := some a, userId := some u })) := by
  refine ⟨?_, ?_, rfl, rfl, ?_⟩
  · intro hst
    simp [loginRun, hst]
  · intro v hst hcode hv
    subst hst
    simp [loginRun, hcode, hv]
  · intro d a u hst hcode hdata ha hu
    subst hst
    simp [loginRun, hcode, hdata, ha, hu]

/-- Witness for the amended C5: an HTTP 500 body gives the generic client
error, and a well-formed 200/200000 body stores the token and user id. -/
theorem loginRun_classification_witness :
    loginRun { username := "u", password := "p" } (.resp 500 (.obj [])) =
      (.error .clientErr, { username := "u", password := "p" }) ∧
    loginRun { username := "u", password := "p" }
        (.resp 200 (.obj
          [("code", .leaf (.lnum 200000)), ("msg", .leaf (.lstr "ok")),
           ("data", .obj [("authorization", .lstr "tok"),
                          ("userId", .lstr "u1")])])) =
      (.ok (.obj [("authorization", .lstr "tok"), ("userId", .lstr "u1")]),
       { username := "u", password := "p",
         token := some (.lstr "tok"), userId := some (.lstr "u1") }) := by
  constructor
  · exact (loginRun_classification { username := "u", password := "p" }
      500 (.obj [])).1 (by decide)
  · exact (loginRun_classification { username := "u", password := "p" }
      200 (.obj
        [("code", .leaf (.lnum 200000)), ("msg", .leaf (.lstr "ok")),
         ("data", .obj [("authorization", .lstr "tok"),
                        ("userId", .lstr "u1")])])).2.2.2.2
      (.obj [("authorization", .lstr "tok"), ("userId", .lstr "u1")])
      (.lstr "tok") (.lstr "u1") rfl rfl rfl rfl rfl

/-- C6: a sensor whose effective configuration gives scale exponent
`s > 0` reports `dpValue / 10^s`; `s = 0` (in particular, an absent
`scale` key, via `get("scale", 0)`) reports the raw value unchanged. -/
theorem sensorScale_divides (cfg : SensorConfig) (dps : List Dp)
    (dpId : String) (dp : Dp) (q : ℚ)
    (hfind : dpMapLookup dps dpId = some dp) (hval : dp.dpValue = .lnum q) :
    (0 < effectiveScale cfg →
      sensorUpdateState (effectiveScale cfg) dps dpId =
        .ok (some (.lnum (q / (10 : ℚ) ^ (effectiveScale cfg).toNat)), true)) ∧
    (effectiveScale cfg = 0 →
      sensorUpdateState (effectiveScale cfg) dps dpId =
        .ok (some (.lnum q), true)) ∧
    (cfg.scale = none → effectiveScale cfg = 0) := by
  refine ⟨?_, ?_, ?_⟩
  · intro hpos
    simp [sensorUpdateState, hfind, applyScale, hval, hpos, Except.map]
  · intro hz
    simp [sensorUpdateState, hfind, applyScale, hval, hz, Except.map]
  · intro hn
    simp [effectiveScale, hn]

/-- Witness for C6: the power sensor (`"112"`, registry scale 3) turns a
raw 5000 W reading into 5 kW, and a zero-scale sensor reports the raw
value. -/
theorem sensorScale_divides_witness :
    (0 < effectiveScale { name := "Power", unit := some "kW", scale := some 3 } ∧
      sensorUpdateState
          (effectiveScale { name := "Power", unit := some "kW", scale := some 3 })
          [⟨"112", .lnum 5000, "ro", none⟩] "112" =
        .ok (some (.lnum ((5000 : ℚ) /
          (10 : ℚ) ^ (effectiveScale
            { name := "Power", unit := some "kW", scale := some 3 }).toNat)), true)) ∧
    sensorUpdateState
        (effectiveScale { name := "Running Percentage", unit := some "%" })
        [⟨"105", .lnum 80, "ro", none⟩] "105" =
      .ok (some (.lnum 80), true) := by
  constructor
  · exact ⟨by decide,
      (sensorScale_divides { name := "Power", unit := some "kW", scale := some 3 }
        [⟨"112", .lnum 5000, "ro", none⟩] "112"
        ⟨"112", .lnum 5000, "ro", none⟩ 5000 (by decide) rfl).1 (by decide)⟩
  · exact (sensorScale_divides { name := "Running Percentage", unit := some "%" }
      [⟨"105", .lnum 80, "ro", none⟩] "105"
      ⟨"105", .lnum 80, "ro", none⟩ 80 (by decide) rfl).2.1 (by decide)

/-- The membership test of `jContains` can only raise `TypeError`. -/
theorem jContains_error_eq (key : String) (t : JTop) (e : PyExn)
    (h : jContains key t = .error e) : e = .typeError := by
  cases t with
  | obj l => simp [jContains] at h
  | arr l => simp [jContains] at h
  | leaf v => cases v <;> simp [jContains] at h <;> exact h.symm

/-- Document subscripting can only raise `KeyError` or `TypeError`. -/
theorem jSubscrTop_error_eq (t : JTop) (key : String) (e : PyExn)
    (h : jSubscrTop t key = .error e) : e = .keyError ∨ e = .typeError := by
  cases t with
  | obj l =>
    rw [jSubscrTop] at h
    rcases hf : l.find? (fun p => p.1 = key) with _ | p <;> rw [hf] at h
    · exact Or.inl (Except.error.inj h).symm
    · exact absurd h (by simp)
  | arr l => exact Or.inr (Except.error.inj h).symm
  | leaf v => exact Or.inr (Except.error.inj h).symm

/-- `int()` of a string can only raise `ValueError`. -/
theorem pyIntStr_error_eq (s : String) (e : PyExn)
    (h : pyIntStr s = .error e) : e = .valueError := by
  unfold pyIntStr at h
  split at h <;> split at h <;> simp_all

/-- `int()` of a JSON value can only raise `TypeError` or `ValueError`. -/
theorem pyIntVal_error_eq (v : JVal) (e : PyExn)
    (h : pyIntVal v = .error e) : e = .typeError ∨ e = .valueError := by
  cases v with
  | arr l => exact Or.inl (Except.error.inj h).symm
  | obj l => exact Or.inl (Except.error.inj h).symm
  | leaf w =>
    cases w with
    | lstr s => exact Or.inr (pyIntStr_error_eq s e h)
    | lnull => exact Or.inl (Except.error.inj h).symm
    | larr => exact Or.inl (Except.error.inj h).symm
    | lobj => exact Or.inl (Except.error.inj h).symm
    | lnum q => exact absurd h (by simp [pyIntVal])
    | lbool b => exact absurd h (by simp [pyIntVal])

/-- The sensor try-block never raises `AttributeError`. -/
theorem sensorTry_error_ne_attr (cfg : SensorConfig) (t : JTop) (e : PyExn)
    (h : sensorTry cfg t = .error e) : e ≠ .attrError := by
  unfold sensorTry at h
  split at h
  · next hc =>
    cases (Except.error.inj h)
    have := jContains_error_eq _ _ _ hc
    simp [this]
  · exact absurd h (by simp)
  · split at h
    · next hs =>
      cases (Except.error.inj h)
      rcases jSubscrTop_error_eq _ _ _ hs with h' | h' <;> simp [h']
    · split at h
      · next hi =>
        cases (Except.error.inj h)
        rcases pyIntVal_error_eq _ _ hi with h' | h' <;> simp [h']
      · exact absurd h (by simp)

/-- Presentation fields of a number entity are never touched by the
`dpProperty` override block. -/
theorem numberApply_presentation (cfg : NumberConfig) (t : JTop) :
    (numberApply cfg t).name = cfg.name ∧ (numberApply cfg t).unit = cfg.unit ∧
    (numberApply cfg t).icon = cfg.icon ∧ (numberApply cfg t).mode = cfg.mode := by
  unfold numberApply
  split
  · exact ⟨rfl, rfl, rfl, rfl⟩
  · split
    · exact ⟨rfl, rfl, rfl, rfl⟩
    · split <;> exact ⟨rfl, rfl, rfl, rfl⟩

/-- A field whose key is not supplied keeps its default through
`tryField`. -/
theorem tryField_not_true (t : JTop) (key : String) (dflt : ℚ) (q : ℚ)
    (hk : jContains key t ≠ .ok true) (h : tryField t key dflt = .ok q) :
    q = dflt := by
  unfold tryField at h
  split at h
  · exact absurd h (by simp)
  · exact (Except.ok.inj h).symm
  · next hc => exact absurd hc hk

/-- The `min` bound keeps its registry default when `"min"` is not
supplied in `dpProperty`. -/
theorem numberApply_min_default (cfg : NumberConfig) (t : JTop)
    (hk : jContains "min" t ≠ .ok true) :
    (numberApply cfg t).min = cfg.min := by
  unfold numberApply
  split
  · rfl
  · next mn hmn =>
    have hq := tryField_not_true t "min" cfg.min mn hk hmn
    subst hq
    split
    · rfl
    · split <;> rfl

/-- The `max` bound keeps its registry default when `"max"` is not
supplied in `dpProperty`. -/
theorem numberApply_max_default (cfg : NumberConfig) (t : JTop)
    (hk : jContains "max" t ≠ .ok true) :
    (numberApply cfg t).max = cfg.max := by
  unfold numberApply
  split
  · rfl
  · split
    · rfl
    · next mx hmx =>
      have hq := tryField_not_true t "max" cfg.max mx hk hmx
      subst hq
      split <;> rfl

/-- The `step` keeps its registry default when `"step"` is not supplied
in `dpProperty`. -/
theorem numberApply_step_default (cfg : NumberConfig) (t : JTop)
    (hk : jContains "step" t ≠ .ok true) :
    (numberApply cfg t).step = cfg.step := by
  unfold numberApply
  split
  · rfl
  · split
    · rfl
    · split
      · rfl
      · next st hst =>
        exact tryField_not_true t "step" cfg.step st hk hst

/-- C7 amended: for any device-supplied `dpProperty` (malformed JSON
included), climate preset-mode setup and the number bounds/step
resolution never raise and keys not supplied keep the registry defaults;
the sensor scale resolution degrades to the registry default on
malformed JSON, an absent key, `KeyError` or `ValueError`, but a
`TypeError` raised inside its try-block (e.g. a dpProperty that parses
to a bare number) escapes its narrow `except` clause. -/
theorem dpPropertyMalformed_degrades (p : Option JParse)
    (cfgN : NumberConfig) (cfgS : SensorConfig) :
    (p = none ∨ p = some .malformed →
      setupPresetModes p = ([], []) ∧ resolveNumberConfig cfgN p = cfgN ∧
      resolveSensorScale cfgS "112" p = .ok cfgS) ∧
    ((resolveNumberConfig cfgN p).name = cfgN.name ∧
      (resolveNumberConfig cfgN p).unit = cfgN.unit ∧
      (resolveNumberConfig cfgN p).icon = cfgN.icon ∧
      (resolveNumberConfig cfgN p).mode = cfgN.mode) ∧
    (∀ t, p = some (.parsed t) →
      (jContains "min" t ≠ .ok true →
        (resolveNumberConfig cfgN p).min = cfgN.min) ∧
      (jContains "max" t ≠ .ok true →
        (resolveNumberConfig cfgN p).max = cfgN.max) ∧
      (jContains "step" t ≠ .ok true →
        (resolveNumberConfig cfgN p).step = cfgN.step)) ∧
    ((∃ c, resolveSensorScale cfgS "112" p = .ok c) ∨
      resolveSensorScale cfgS "112" p = .error .typeError) ∧
    (∀ t, p = some (.parsed t) → jContains "scale" t = .ok false →
      resolveSensorScale cfgS "112" p = .ok cfgS) := by
  refine ⟨?_, ?_, ?_, ?_, ?_⟩
  · rintro (hp | hp) <;> subst hp <;>
      exact ⟨rfl, rfl, rfl⟩
  · rcases p with _ | p
    · exact ⟨rfl, rfl, rfl, rfl⟩
    · rcases p with _ | t
      · exact ⟨rfl, rfl, rfl, rfl⟩
      · exact numberApply_presentation cfgN t
  · intro t hp
    subst hp
    exact ⟨numberApply_min_default cfgN t,
      numberApply_max_default cfgN t,
      numberApply_step_default cfgN t⟩
  · rcases p with _ | p
    · exact Or.inl ⟨cfgS, rfl⟩
    · rcases p with _ | t
      · exact Or.inl ⟨cfgS, rfl⟩
      · show (∃ c, (match sensorTry cfgS t with
          | .ok c => .ok c
          | .error e =>
            if e = .keyError ∨ e = .valueError then .ok cfgS
            else .error e) = Except.ok c) ∨
          (match sensorTry cfgS t with
          | .ok c => .ok c
          | .error e =>
            if e = .keyError ∨ e = .valueError then .ok cfgS
            else .error e) = Except.error .typeError
        rcases hs : sensorTry cfgS t with e | c
        · by_cases hc : e = .keyError ∨ e = .valueError
          · refine Or.inl ⟨cfgS, ?_⟩
            rcases hc with hc | hc <;> subst hc <;> rfl
          · have hne := sensorTry_error_ne_attr cfgS t e hs
            have he : e = .typeError := by
              cases e <;> simp_all
            subst he
            exact Or.inr rfl
        · exact Or.inl ⟨c, rfl⟩
  · intro t hp hsc
    subst hp
    show (match sensorTry cfgS t with
      | .ok c => .ok c
      | .error e =>
        if e = .keyError ∨ e = .valueError then .ok cfgS
        else .error e) = Except.ok cfgS
    unfold sensorTry
    rw [hsc]

/-- Witness for the amended C7: a malformed `dpProperty` leaves the
preset mapping empty and both registry entries untouched. -/
theorem dpPropertyMalformed_degrades_witness :
    setupPresetModes (some .malformed) = ([], []) ∧
    resolveNumberConfig
        { name := "Set Water Pump Time", unit := some "min",
          icon := "mdi:timer", min := 10, max := 120, step := 5,
          mode := "slider" } (some .malformed) =
      { name := "Set Water Pump Time", unit := some "min",
        icon := "mdi:timer", min := 10, max := 120, step := 5,
        mode := "slider" } ∧
    resolveSensorScale { name := "Power", unit := some "kW", scale := some 3 }
        "112" (some .malformed) =
      .ok { name := "Power", unit := some "kW", scale := some 3 } :=
  (dpPropertyMalformed_degrades (some .malformed)
    { name := "Set Water Pump Time", unit := some "min",
      icon := "mdi:timer", min := 10, max := 120, step := 5,
      mode := "slider" }
    { name := "Power", unit := some "kW", scale := some 3 }).1 (Or.inr rfl)

/-- C7 counterexample: a `dpProperty` that parses to the bare JSON number
`5` makes the power sensor's scale resolution raise `TypeError`
(`"scale" in 5`), which the `except (JSONDecodeError, KeyError,
ValueError)` clause does not catch — entity construction raises. -/
theorem sensorDpPropertyNonObject_raises :
    resolveSensorScale { name := "Power", unit := some "kW", scale := some 3 }
        "112" (some (.parsed (.leaf (.lnum 5)))) = .error .typeError := by
  rfl

/-- C8 (code bug, evaluated at the failing input): setting HVAC mode OFF
issues exactly the power-off command on dp `"101"`; but setting HEAT
while the device is off issues *only* the mode command on dp `"106"` —
`async_turn_on` calls the misspelled client method `set_device_statuss`,
which is not defined on the client, so the `AttributeError` is swallowed
and no power-on command is ever sent. -/
theorem setHvacMode_turnOnTypo_eval :
    asyncSetHvacMode "A" .off ⟨.lbool true, .heat, .idle⟩ =
      (⟨.lbool false, .off, .off⟩, [⟨"A", "101", .lbool false⟩]) ∧
    asyncSetHvacMode "A" .heat ⟨.lbool false, .off, .off⟩ =
      (⟨.lbool false, .heat, .off⟩, [⟨"A", "106", .lnum 1⟩]) ∧
    "set_device_statuss" ∉ clientMethods ∧
    asyncTurnOn "A" ⟨.lbool false, .off, .off⟩ =
      (⟨.lbool false, .off, .off⟩, []) := by
  refine ⟨rfl, ?_, by decide, rfl⟩
  show (match HVAC_MODE_REVERSE_MAP .heat with
    | some v =>
      match invokeSet "set_device_status" "A" "106" (.lnum v) with
      | .ok cmd =>
        ({ (asyncTurnOn "A" ⟨.lbool false, .off, .off⟩).1 with hvacMode := .heat },
          (asyncTurnOn "A" ⟨.lbool false, .off, .off⟩).2 ++ [cmd])
      | .error _ => (asyncTurnOn "A" ⟨.lbool false, .off, .off⟩)
    | none => (asyncTurnOn "A" ⟨.lbool false, .off, .off⟩)) = _
  rfl
/-- Looking up in a cons cell of a Python-style dict. -/
theorem dlookup_cons {α β : Type} [DecidableEq α] (x : α × β)
    (l : List (α × β)) (k : α) :
    dlookup (x :: l) k = if x.1 = k then some x.2 else dlookup l k := by
  by_cases h : x.1 = k <;> simp [dlookup, List.find?, h]

/-- Inserting with a key the head does not carry steps over the head. -/
theorem dinsert_cons_ne {α β : Type} [DecidableEq α] (p : α × β)
    (m : List (α × β)) (k : α) (v : β) (hp : p.1 ≠ k) :
    dinsert (p :: m) k v = p :: dinsert m k v := by
  by_cases hany : m.any (fun q => q.1 = k) <;>
    simp [dinsert, List.any_cons, hp, hany]

/-- Inserting with the head's key overwrites in place. -/
theorem dinsert_cons_eq {α β : Type} [DecidableEq α] (p : α × β)
    (m : List (α × β)) (k : α) (v : β) (hp : p.1 = k) :
    dinsert (p :: m) k v =
      (k, v) :: m.map (fun q => if q.1 = k then (k, v) else q) := by
  have hany : ((p :: m).any (fun q => q.1 = k)) = true := by
    simp [List.any_cons, hp]
  simp [dinsert, hany, hp]

/-- Overwriting the value at key `k` leaves lookups of other keys
unchanged. -/
theorem dlookup_mapReplace {α β : Type} [DecidableEq α]
    (m : List (α × β)) (k : α) (v : β) (k' : α) (hk : k' ≠ k) :
    dlookup (m.map (fun q => if q.1 = k then (k, v) else q)) k' =
      dlookup m k' := by
  induction m with
  | nil => rfl
  | cons q l ih =>
    simp only [List.map_cons]
    rw [dlookup_cons, dlookup_cons]
    by_cases hq : q.1 = k
    · rw [if_pos hq]
      have h1 : ¬ (((k, v) : α × β).1 = k') := fun h => hk h.symm
      have h2 : ¬ (q.1 = k') := by
        rw [hq]; exact fun h => hk h.symm
      rw [if_neg h1, if_neg h2, ih]
    · rw [if_neg hq]
      by_cases hq' : q.1 = k'
      · rw [if_pos hq', if_pos hq']
      · rw [if_neg hq', if_neg hq', ih]

/-- Inserting then looking up in a Python-style dict: the inserted key
maps to the new value, other keys are untouched. -/
theorem dlookup_dinsert {α β : Type} [DecidableEq α]
    (m : List (α × β)) (k : α) (v : β) (k' : α) :
    dlookup (dinsert m k v) k' = if k' = k then some v else dlookup m k' := by
  induction m with
  | nil =>
    show dlookup [(k, v)] k' = _
    rw [dlookup_cons]
    by_cases h : k' = k
    · subst h; simp
    · rw [if_neg (fun h' => h h'.symm), if_neg h]
  | cons p m ih =>
    by_cases hp : p.1 = k
    · rw [dinsert_cons_eq p m k v hp, dlookup_cons]
      by_cases hk : k' = k
      · subst hk; simp
      · have h1 : ¬ (((k, v) : α × β).1 = k') := fun h => hk h.symm
        have h2 : ¬ (p.1 = k') := by
          rw [hp]; exact fun h => hk h.symm
        rw [if_neg h1, dlookup_mapReplace m k v k' hk, if_neg hk,
          dlookup_cons, if_neg h2]
    · rw [dinsert_cons_ne p m k v hp, dlookup_cons, dlookup_cons]
      by_cases hq : p.1 = k'
      · have hk : k' ≠ k := fun h => hp (h ▸ hq)
        rw [if_pos hq, if_neg hk, if_pos hq]
      · rw [if_neg hq, if_neg hq, ih]

/-- Keys never inserted by a fold of dict insertions keep their prior
binding (forward map version: insertion keys are the pairs' codes). -/
theorem dlookup_foldFwd_notMem (l : List (Int × JVal))
    (acc : List (Int × JVal)) (n : Int) (hn : n ∉ l.map Prod.fst) :
    dlookup (l.foldl (fun m p => dinsert m p.1 p.2) acc) n = dlookup acc n := by
  induction l generalizing acc with
  | nil => rfl
  | cons p rest ih =>
    simp only [List.map_cons, List.mem_cons] at hn
    push_neg at hn
    rw [List.foldl_cons, ih _ hn.2, dlookup_dinsert, if_neg hn.1]

/-- Forward preset map lookup: with pairwise-distinct codes, every pair's
code retrieves that pair's label. -/
theorem dlookup_foldFwd_mem (l : List (Int × JVal))
    (hnd : (l.map Prod.fst).Nodup) (n : Int) (v : JVal)
    (hmem : (n, v) ∈ l) (acc : List (Int × JVal)) :
    dlookup (l.foldl (fun m p => dinsert m p.1 p.2) acc) n = some v := by
  induction l generalizing acc with
  | nil => cases hmem
  | cons p rest ih =>
    simp only [List.map_cons, List.nodup_cons] at hnd
    rcases List.mem_cons.mp hmem with hh | ht
    · subst hh
      rw [List.foldl_cons, dlookup_foldFwd_notMem rest _ n hnd.1,
        dlookup_dinsert, if_pos rfl]
    · rw [List.foldl_cons]
      exact ih hnd.2 ht _

/-- Labels never inserted by the reverse fold keep their prior binding
(the reverse map's insertion keys are the pairs' labels). -/
theorem dlookup_foldRev_notMem (l : List (Int × JVal))
    (acc : List (JVal × Int)) (v : JVal) (hv : v ∉ l.map Prod.snd) :
    dlookup (l.foldl (fun m p => dinsert m p.2 p.1) acc) v = dlookup acc v := by
  induction l generalizing acc with
  | nil => rfl
  | cons p rest ih =>
    simp only [List.map_cons, List.mem_cons] at hv
    push_neg at hv
    rw [List.foldl_cons, ih _ hv.2, dlookup_dinsert, if_neg hv.1]

/-- Reverse preset map lookup: every label of the pair list retrieves the
code of one of its pairs (the last occurrence wins). -/
theorem dlookup_foldRev_mem (l : List (Int × JVal)) (v : JVal)
    (hmem : v ∈ l.map Prod.snd) (acc : List (JVal × Int)) :
    ∃ n, (n, v) ∈ l ∧
      dlookup (l.foldl (fun m p => dinsert m p.2 p.1) acc) v = some n := by
  induction l generalizing acc with
  | nil => cases hmem
  | cons p rest ih =>
    by_cases hrest : v ∈ rest.map Prod.snd
    · rcases ih hrest (dinsert acc p.2 p.1) with ⟨n, hn, hl⟩
      refine ⟨n, List.mem_cons_of_mem p hn, ?_⟩
      rw [List.foldl_cons]
      exact hl
    · have hv : v = p.2 := by
        rcases List.mem_cons.mp (List.map_cons Prod.snd p rest ▸ hmem)
          with h | h
        · exact h
        · exact absurd h hrest
      subst hv
      refine ⟨p.1, List.mem_cons_self p rest, ?_⟩
      rw [List.foldl_cons, dlookup_foldRev_notMem rest _ _ hrest,
        dlookup_dinsert, if_pos rfl]

/-- When every key parses as an integer, the first preset loop completes
and builds the dict of (code, label) insertions. -/
theorem buildForward_total (pairs : List (String × JVal))
    (hkeys : ∀ kv ∈ pairs, ∃ n, pyIntStr kv.1 = .ok n)
    (acc : List (Int × JVal)) :
    buildForward pairs acc =
      ((pairs.filterMap (fun kv =>
          (pyIntStr kv.1).toOption.map (fun n => (n, kv.2)))).foldl
        (fun m p => dinsert m p.1 p.2) acc, true) := by
  induction pairs generalizing acc with
  | nil => rfl
  | cons kv rest ih =>
    rcases hkeys kv (List.mem_cons_self kv rest) with ⟨n, hn⟩
    have hrest := fun kv' h => hkeys kv' (List.mem_cons_of_mem kv h)
    cases kv with
    | mk k v =>
      simp only [List.filterMap_cons, hn, Except.toOption, Option.map_some,
        List.foldl_cons]
      show buildForward ((k, v) :: rest) acc = _
      rw [buildForward, hn]
      exact ih hrest _

/-- When every key parses and every label is hashable, the second preset
loop completes and builds the reverse dict of (label, code) insertions. -/
theorem buildReverse_total (pairs : List (String × JVal))
    (hkeys : ∀ kv ∈ pairs, ∃ n, pyIntStr kv.1 = .ok n)
    (hhash : ∀ kv ∈ pairs, kv.2.hashable = true)
    (acc : List (JVal × Int)) :
    buildReverse pairs acc =
      ((pairs.filterMap (fun kv =>
          (pyIntStr kv.1).toOption.map (fun n => (n, kv.2)))).foldl
        (fun m p => dinsert m p.2 p.1) acc, true) := by
  induction pairs generalizing acc with
  | nil => rfl
  | cons kv rest ih =>
    rcases hkeys kv (List.mem_cons_self kv rest) with ⟨n, hn⟩
    have hh := hhash kv (List.mem_cons_self kv rest)
    have hrest := fun kv' h => hkeys kv' (List.mem_cons_of_mem kv h)
    have hrh := fun kv' h => hhash kv' (List.mem_cons_of_mem kv h)
    cases kv with
    | mk k v =>
      simp only [List.filterMap_cons, hn, Except.toOption, Option.map_some,
        List.foldl_cons]
      show buildReverse ((k, v) :: rest) acc = _
      rw [buildReverse, hn]
      simp only [hh, if_true]
      exact ih hrest hrh _

/-- The labels of the code/label pair list are the labels of the raw
mapping, when every key parses. -/
theorem filterMap_snd_eq (pairs : List (String × JVal))
    (hkeys : ∀ kv ∈ pairs, ∃ n, pyIntStr kv.1 = .ok n) :
    (pairs.filterMap (fun kv =>
        (pyIntStr kv.1).toOption.map (fun n => (n, kv.2)))).map Prod.snd =
      pairs.map Prod.snd := by
  induction pairs with
  | nil => rfl
  | cons kv rest ih =>
    rcases hkeys kv (List.mem_cons_self kv rest) with ⟨n, hn⟩
    have hrest := fun kv' h => hkeys kv' (List.mem_cons_of_mem kv h)
    have hto : (Except.ok n : Except PyExn Int).toOption = some n := rfl
    simp only [List.filterMap_cons, hn, hto, Option.map_some, List.map_cons]
    exact congrArg (List.cons kv.2) (ih hrest)

/-- C9 counterexample: for the device mode mapping `{"1": "A", "x": "B"}`
the key `"x"` makes `int()` raise `ValueError` mid-way through the first
loop, so the forward map holds only `1 ↦ "A"` and the reverse map is
empty.  The label `"A"` is present in the parsed mode mapping (and in
the forward map), yet encoding it via the reverse mapping yields no code
at all, so the round trip fails. -/
theorem presetRoundTrip_counterexample :
    setupPresetModes (some (.parsed (.obj
        [("1", .leaf (.lstr "A")), ("x", .leaf (.lstr "B"))]))) =
      ([(1, .leaf (.lstr "A"))], []) ∧
    JVal.leaf (.lstr "A") ∈
      ([("1", JVal.leaf (.lstr "A")), ("x", JVal.leaf (.lstr "B"))].map
        Prod.snd) ∧
    JVal.leaf (.lstr "A") ∈ ([((1 : Int), JVal.leaf (.lstr "A"))].map Prod.snd) ∧
    (dlookup
        (setupPresetModes (some (.parsed (.obj
          [("1", .leaf (.lstr "A")), ("x", .leaf (.lstr "B"))])))).2
        (JVal.leaf (.lstr "A"))).bind
      (dlookup
        (setupPresetModes (some (.parsed (.obj
          [("1", .leaf (.lstr "A")), ("x", .leaf (.lstr "B"))])))).1) =
      none := by
  decide

/-- C9 amended: provided every key of the parsed mode mapping parses as
an integer, every label is hashable (so both loops complete), and
distinct keys denote pairwise distinct integer codes, encoding any label
of the mapping via the reverse map and decoding via the forward map
yields the original label. -/
theorem presetRoundTrip_distinctCodes (pairs : List (String × JVal))
    (hkeys : ∀ kv ∈ pairs, ∃ n, pyIntStr kv.1 = .ok n)
    (hhash : ∀ kv ∈ pairs, kv.2.hashable = true)
    (hnd : ((pairs.filterMap (fun kv =>
        (pyIntStr kv.1).toOption.map (fun n => (n, kv.2)))).map
          Prod.fst).Nodup) :
    ∀ v ∈ pairs.map Prod.snd,
      (dlookup (setupPresetModes (some (.parsed (.obj pairs)))).2 v).bind
        (dlookup (setupPresetModes (some (.parsed (.obj pairs)))).1) =
      some v := by
  intro v hv
  have hfwd := buildForward_total pairs hkeys []
  have hrev := buildReverse_total pairs hkeys hhash []
  have hmaps : setupPresetModes (some (.parsed (.obj pairs))) =
      ((pairs.filterMap (fun kv =>
          (pyIntStr kv.1).toOption.map (fun n => (n, kv.2)))).foldl
        (fun m p => dinsert m p.1 p.2) [],
       (pairs.filterMap (fun kv =>
          (pyIntStr kv.1).toOption.map (fun n => (n, kv.2)))).foldl
        (fun m p => dinsert m p.2 p.1) []) := by
    show (let (fwd, ok1) := buildForward pairs []
      if ok1 then
        let (rev, _) := buildReverse pairs []
        (fwd, rev)
      else (fwd, [])) = _
    rw [hfwd, hrev]
    rfl
  rw [hmaps]
  have hvmem : v ∈ (pairs.filterMap (fun kv =>
      (pyIntStr kv.1).toOption.map (fun n => (n, kv.2)))).map Prod.snd := by
    rw [filterMap_snd_eq pairs hkeys]
    exact hv
  rcases dlookup_foldRev_mem _ v hvmem [] with ⟨n, hpair, hlook⟩
  rw [hlook]
  simp only [Option.some_bind]
  exact dlookup_foldFwd_mem _ hnd n v hpair []

/-- Witness for the amended C9: the mapping
`{"0": "Smart", "1": "Silent"}` satisfies the hypotheses and the label
`"Smart"` round-trips. -/
theorem presetRoundTrip_distinctCodes_witness :
    (dlookup (setupPresetModes (some (.parsed (.obj
        [("0", .leaf (.lstr "Smart")), ("1", .leaf (.lstr "Silent"))])))).2
      (JVal.leaf (.lstr "Smart"))).bind
      (dlookup (setupPresetModes (some (.parsed (.obj
        [("0", .leaf (.lstr "Smart")), ("1", .leaf (.lstr "Silent"))])))).1) =
      some (JVal.leaf (.lstr "Smart")) := by
  refine presetRoundTrip_distinctCodes
    [("0", .leaf (.lstr "Smart")), ("1", .leaf (.lstr "Silent"))]
    ?_ (by decide) (by decide)
    (JVal.leaf (.lstr "Smart")) (by decide)
  intro kv h
  rcases List.mem_cons.mp h with rfl | h2
  · exact ⟨0, by decide⟩
  · rcases List.mem_cons.mp h2 with rfl | h3
    · exact ⟨1, by decide⟩
    · cases h3

/-- C10: every domain operation invoked before any successful `login()`
(token still `None`) fails with the plain `Exception("Not logged in")`
raised by `_get_headers` before `_api_wrapper`'s `try` block, so it is
not wrapped into any of the `FairlandApiClient*Error` classes. -/
theorem domainOpsBeforeLogin_notLoggedIn (u p : String)
    (loginO : HttpOutcome) (net : Nat → Headers → HttpOutcome) :
    (getCourtyards { username := u, password := p } loginO net).result =
      .error .notLoggedIn ∧
    (getAllDevicesInCourtyard { username := u, password := p } loginO net).result =
      .error .notLoggedIn ∧
    (getDeviceStatus { username := u, password := p } loginO net).result =
      .error .notLoggedIn ∧
    (setDeviceStatus { username := u, password := p } loginO net).result =
      .error .notLoggedIn ∧
    (ApiError.notLoggedIn ≠ .authErr ∧ ApiError.notLoggedIn ≠ .commErr ∧
      ApiError.notLoggedIn ≠ .clientErr) := by
  refine ⟨rfl, ?_, rfl, rfl, by decide⟩
  show (let w := apiWrapper { username := u, password := p } loginO net
    match w.result with
    | .ok d =>
      match jSubscrVal d "bindDeviceInfos" with
      | .ok v => { w with result := .ok (JVal.leaf v) }
      | .error _ => { w with result := .error .rawKeyError }
    | .error _ => w).result = _
  rfl

end Fairland
